import Mathlib

/-!
# NexusChat backend messaging core — shallow embedding

This file embeds the real-time messaging core of the NexusChat backend
(`src/socket.ts`, `src/routes/chat.ts`) in Lean 4 and proves or refutes the
frozen claims about it.

The repository ships two variants of the socket handler module:

* **Variant 1** (older): connection auth runs as an `io.use` middleware that
  always calls the session verifier; `join-chat` joins the room with no
  participant check; `send-message` performs no content validation and no
  session resolution (it uses the supplied `chatSessionId` directly) and always
  emits a direct `new-message` to an online receiver.
* **Variant 2** (newer): auth runs after the handshake and fails fast when
  neither cookie nor token is present; `join-chat` verifies participation;
  `send-message` validates content, resolves or creates the chat session, and
  emits a direct `message-notification` only when the receiver's socket is not
  joined to the conversation room.

Both variants are embedded below, suffixed `V1` / `V2`; logic that is
identical in both (the `mark-read` handler, the `disconnect` handler) is
embedded once.

Databases are modelled as lists of rows (most recently inserted first);
`prisma.….findFirst` becomes `List.find?`, `prisma.….updateMany` becomes a
`List.map` guarded by the `where` predicate.  Timestamps are `Nat`.  Fresh ids
generated by the persistence layer are passed in as explicit parameters.
Observable socket emissions are collected in an output list of type `Out`.
-/

namespace NexusChat

/-- A `ChatSession` row (Conversation): two participants and the
last-activity timestamp maintained by the handlers. -/
structure ChatSession where
  id : String
  participant1Id : String
  participant2Id : String
  updatedAt : Nat
  deriving Repr, DecidableEq

/-- A `Message` row.  `readAt = none` models SQL `NULL` (unread). -/
structure Message where
  id : String
  content : String
  senderId : String
  receiverId : String
  chatSessionId : String
  readAt : Option Nat
  deriving Repr, DecidableEq

/-- Observable emissions of the socket layer. -/
inductive Out where
  /-- `io.to(chatRoom sid).emit('new-message', m)` — broadcast to the room. -/
  | newMessageRoom (room : String) (m : Message)
  /-- Variant 1: `io.to(receiverSocketId).emit('new-message', m)` — direct. -/
  | newMessageDirect (socketId : String) (m : Message)
  /-- Variant 2: `receiverSocket.emit('message-notification', {sessionId, message})`. -/
  | messageNotification (socketId : String) (sessionId : String) (m : Message)
  /-- Variant 2: `socket.emit('message-sent', {messageId})` back to the sender. -/
  | messageSent (socketId : String) (messageId : String)
  /-- Variant 2: `socket.emit('error', {message})` to the initiating socket. -/
  | errorEvt (socketId : String) (message : String)
  /-- Variant 1: `socket.emit('message-error', {error})` to the initiating socket. -/
  | messageError (socketId : String) (message : String)
  /-- `io.to(senderSocketId).emit('messages-read', {sessionId, messageIds})`. -/
  | messagesRead (socketId : String) (sessionId : String) (messageIds : List String)
  /-- `socket.broadcast.emit('user-online', {userId})`. -/
  | userOnline (userId : String)
  /-- `socket.broadcast.emit('user-offline', {userId})`. -/
  | userOffline (userId : String)
  /-- `socket.emit('online-users', userIds)` to the new connection. -/
  | onlineUsers (socketId : String) (userIds : List String)
  /-- Variant 2: `socket.emit('auth_error', {message})` before disconnecting. -/
  | authError (socketId : String) (message : String)
  /-- Variant 1: `next(new Error(message))` — handshake-level rejection. -/
  | nextError (message : String)
  deriving Repr, DecidableEq

/-- The `onlineUsers` map (`userId -> socketId`), modelled as an association
list; `Map.set` replaces any previous binding for the same user. -/
def onlineSet (online : List (String × String)) (u s : String) :
    List (String × String) :=
  (u, s) :: online.filter (fun p => p.1 != u)

/-- `onlineUsers.delete(userId)`. -/
def onlineDelete (online : List (String × String)) (u : String) :
    List (String × String) :=
  online.filter (fun p => p.1 != u)

/-- `onlineUsers.get(userId)`. -/
def lookupOnline (online : List (String × String)) (u : String) :
    Option String :=
  (online.find? (fun p => p.1 == u)).map (fun p => p.2)

/-- The room name used by every handler: the string `chat:` followed by the
session id. -/
def chatRoom (sessionId : String) : String := "chat:" ++ sessionId

/-- Room membership table: `(socketId, room)` pairs. -/
def inRoom (rooms : List (String × String)) (socketId room : String) : Bool :=
  rooms.any (fun p => p.1 == socketId && p.2 == room)

/-- `socket.join(room)` — a no-op when already a member. -/
def joinRoom (rooms : List (String × String)) (socketId room : String) :
    List (String × String) :=
  if inRoom rooms socketId room then rooms else (socketId, room) :: rooms

/-- The whole observable server state shared by the handlers: the two
persistence tables, the presence map and the room-membership table. -/
structure ServerState where
  sessions : List ChatSession
  messages : List Message
  online : List (String × String)
  rooms : List (String × String)
  deriving Repr, DecidableEq

/-- `prisma.chatSession.findFirst({where: {id, OR: [{participant1Id: userId},
{participant2Id: userId}]}})` — the participation lookup shared by `join-chat`
(variant 2) and `mark-read` (both variants). -/
def findSessionForUser (sessions : List ChatSession) (sessionId userId : String) :
    Option ChatSession :=
  sessions.find? (fun s =>
    s.id == sessionId &&
    (s.participant1Id == userId || s.participant2Id == userId))

/-- The `where` predicate of the `mark-read` `updateMany`, applied to one row:
`id ∈ messageIds`, `receiverId == userId`, `readAt: null`. -/
def updateOne (messageIds : List String) (userId : String) (now : Nat)
    (m : Message) : Message :=
  if messageIds.contains m.id && m.receiverId == userId && m.readAt.isNone then
    { m with readAt := some now }
  else m

/-- `prisma.message.updateMany({where: {id: {in: messageIds}, receiverId:
userId, readAt: null}, data: {readAt: now}})` over the whole table. -/
def markReadUpdate (msgs : List Message) (messageIds : List String)
    (userId : String) (now : Nat) : List Message :=
  msgs.map (updateOne messageIds userId now)

/-- The number of rows the `mark-read` `updateMany` would touch (its `count`). -/
def unreadMatchCount (msgs : List Message) (messageIds : List String)
    (userId : String) : Nat :=
  (msgs.filter (fun m =>
    messageIds.contains m.id && m.receiverId == userId && m.readAt.isNone)).length

/-- The `mark-read` handler (identical in both variants): verify the caller is
a participant of the session (silent no-op otherwise), update the matching
rows, then notify the other participant — with the **supplied** `messageIds`
list — if they are online. -/
def markRead (st : ServerState) (userId sessionId : String)
    (messageIds : List String) (now : Nat) : ServerState × List Out :=
  match findSessionForUser st.sessions sessionId userId with
  | none => (st, [])
  | some session =>
    let messages := markReadUpdate st.messages messageIds userId now
    let senderId := if session.participant1Id == userId
      then session.participant2Id else session.participant1Id
    let outs := match lookupOnline st.online senderId with
      | some senderSocketId => [Out.messagesRead senderSocketId sessionId messageIds]
      | none => []
    ({ st with messages := messages }, outs)

theorem updateOne_idem (ids : List String) (u : String) (t1 t2 : Nat)
    (m : Message) : updateOne ids u t2 (updateOne ids u t1 m) = updateOne ids u t1 m := by
  unfold updateOne
  by_cases h : (ids.contains m.id && m.receiverId == u && m.readAt.isNone) = true
  · rw [if_pos h, if_neg (by simp)]
  · rw [if_neg h, if_neg h]

theorem updateOne_skip (ids : List String) (u : String) (t : Nat) (m : Message)
    (h : ¬ (m.id ∈ ids ∧ m.receiverId = u ∧ m.readAt = none)) :
    updateOne ids u t m = m := by
  unfold updateOne
  rw [if_neg]
  intro hc
  simp only [Bool.and_eq_true, beq_iff_eq, Option.isNone_iff_eq_none,
    List.elem_iff] at hc
  exact h ⟨hc.1.1, hc.1.2, hc.2⟩

theorem updateOne_notMatch (ids : List String) (u : String) (t : Nat)
    (m : Message) :
    (ids.contains (updateOne ids u t m).id &&
      (updateOne ids u t m).receiverId == u &&
      (updateOne ids u t m).readAt.isNone) = false := by
  unfold updateOne
  by_cases h : (ids.contains m.id && m.receiverId == u && m.readAt.isNone) = true
  · rw [if_pos h]; simp
  · rw [if_neg h]
    cases hb : (ids.contains m.id && m.receiverId == u && m.readAt.isNone) with
    | false => rfl
    | true => exact absurd hb h

theorem markReadUpdate_idem (msgs : List Message) (ids : List String)
    (u : String) (t1 t2 : Nat) :
    markReadUpdate (markReadUpdate msgs ids u t1) ids u t2 =
      markReadUpdate msgs ids u t1 := by
  induction msgs with
  | nil => rfl
  | cons m rest ih =>
    simp only [markReadUpdate, List.map_cons] at *
    rw [updateOne_idem]
    exact congrArg _ ih

theorem markReadUpdate_count_zero (msgs : List Message) (ids : List String)
    (u : String) (t : Nat) :
    unreadMatchCount (markReadUpdate msgs ids u t) ids u = 0 := by
  induction msgs with
  | nil => rfl
  | cons m rest ih =>
    simp only [markReadUpdate, unreadMatchCount, List.map_cons,
      List.filter_cons] at *
    rw [updateOne_notMatch]
    simpa using ih

/-- **C6.** `mark-read` only sets the read timestamp on supplied messages whose
receiver is the caller and whose timestamp is currently null; every other row
is mapped to itself; and the update is idempotent: re-running it with the same
id set changes nothing and matches zero rows. -/
theorem markRead_update_semantics (msgs : List Message) (ids : List String)
    (u : String) (t1 t2 : Nat) :
    (∀ m, ¬ (m.id ∈ ids ∧ m.receiverId = u ∧ m.readAt = none) →
        updateOne ids u t1 m = m) ∧
    markReadUpdate (markReadUpdate msgs ids u t1) ids u t2 =
      markReadUpdate msgs ids u t1 ∧
    unreadMatchCount (markReadUpdate msgs ids u t1) ids u = 0 := by
  refine ⟨fun m hm => updateOne_skip ids u t1 m hm, ?_, ?_⟩
  · exact markReadUpdate_idem msgs ids u t1 t2
  · exact markReadUpdate_count_zero msgs ids u t1

/-- Witness for C6 at concrete rows: an already-read message and a message for
another receiver are untouched, and a second update is the identity. -/
theorem markRead_update_semantics_witness :
    updateOne ["m1"] "u" 5 ⟨"m1", "hi", "v", "u", "c", some 3⟩ =
      ⟨"m1", "hi", "v", "u", "c", some 3⟩ ∧
    markReadUpdate
        (markReadUpdate [⟨"m1", "hi", "v", "u", "c", none⟩] ["m1"] "u" 5)
        ["m1"] "u" 9 =
      markReadUpdate [⟨"m1", "hi", "v", "u", "c", none⟩] ["m1"] "u" 5 ∧
    unreadMatchCount
        (markReadUpdate [⟨"m1", "hi", "v", "u", "c", none⟩] ["m1"] "u" 5)
        ["m1"] "u" = 0 := by
  refine ⟨(markRead_update_semantics [] ["m1"] "u" 5 9).1 _ (by decide), ?_, ?_⟩
  · exact (markRead_update_semantics [⟨"m1", "hi", "v", "u", "c", none⟩]
      ["m1"] "u" 5 9).2.1
  · exact (markRead_update_semantics [⟨"m1", "hi", "v", "u", "c", none⟩]
      ["m1"] "u" 5 9).2.2

/-! ## Presence registry: connect and disconnect -/

/-- `Array.from(onlineUsers.keys())`. -/
def listOnlineUserIds (online : List (String × String)) : List String :=
  online.map (fun p => p.1)

/-- The connection-established bookkeeping (identical in both variants):
`onlineUsers.set(userId, socket.id)`, broadcast `user-online`, send the
online-user list to the new socket. -/
def connectRegister (st : ServerState) (userId socketId : String) :
    ServerState × List Out :=
  ({ st with online := onlineSet st.online userId socketId },
   [Out.userOnline userId,
    Out.onlineUsers socketId (listOnlineUserIds (onlineSet st.online userId socketId))])

/-- The `disconnect` handler (identical in both variants).  It closes over
`userId` only: `onlineUsers.delete(userId)` and a `user-offline` broadcast,
with no check that the presence entry still points at this socket. -/
def disconnectHandler (st : ServerState) (userId : String) :
    ServerState × List Out :=
  ({ st with online := onlineDelete st.online userId },
   [Out.userOffline userId])

theorem lookupOnline_set (online : List (String × String)) (u s : String) :
    lookupOnline (onlineSet online u s) u = some s := by
  simp [lookupOnline, onlineSet]

theorem lookupOnline_delete (online : List (String × String)) (u : String) :
    lookupOnline (onlineDelete online u) u = none := by
  induction online with
  | nil => rfl
  | cons p rest ih =>
    by_cases h : p.1 = u
    · simp only [onlineDelete, List.filter_cons, h, bne_self_eq_false,
        if_neg Bool.false_ne_true]
      exact ih
    · have hkeep : (p.1 != u) = true := by simp [bne_iff_ne, h]
      have hskip : (p.1 == u) = false := by simp [h]
      simp only [onlineDelete, lookupOnline, List.filter_cons, hkeep,
        List.find?_cons, hskip] at ih ⊢
      simp only [if_true]
      simp only [List.find?_cons, hskip]
      exact ih

/-- **C9.** The disconnect handler is keyed by the user id alone: after a
second connection `s2` supersedes `s1` for user `u` (so the registry points at
`s2`, not `s1`), firing the stale `s1` connection's disconnect handler still
deletes `u`'s presence entry and broadcasts `user-offline` for `u`. -/
theorem disconnect_stale_takes_user_offline (st : ServerState)
    (u s1 s2 : String) (hne : s1 ≠ s2) :
    lookupOnline ((connectRegister (connectRegister st u s1).1 u s2).1).online u
      = some s2 ∧
    lookupOnline ((connectRegister (connectRegister st u s1).1 u s2).1).online u
      ≠ some s1 ∧
    (disconnectHandler ((connectRegister (connectRegister st u s1).1 u s2).1) u).2
      = [Out.userOffline u] ∧
    lookupOnline
      ((disconnectHandler ((connectRegister (connectRegister st u s1).1 u s2).1) u).1).online u
      = none := by
  refine ⟨lookupOnline_set _ u s2, ?_, rfl, ?_⟩
  · intro hc
    have h2 : lookupOnline
        ((connectRegister (connectRegister st u s1).1 u s2).1).online u
        = some s2 := lookupOnline_set _ u s2
    rw [h2] at hc
    exact hne (Option.some_injective _ hc).symm
  · exact lookupOnline_delete _ u

/-- Witness for C9 on a concrete state: user `u` connects twice, the stale
socket's disconnect takes the live connection's user offline. -/
theorem disconnect_stale_takes_user_offline_witness :
    lookupOnline ((connectRegister
        (connectRegister ⟨[], [], [], []⟩ "u" "s1").1 "u" "s2").1).online "u"
      = some "s2" ∧
    lookupOnline ((connectRegister
        (connectRegister ⟨[], [], [], []⟩ "u" "s1").1 "u" "s2").1).online "u"
      ≠ some "s1" ∧
    (disconnectHandler ((connectRegister
        (connectRegister ⟨[], [], [], []⟩ "u" "s1").1 "u" "s2").1) "u").2
      = [Out.userOffline "u"] ∧
    lookupOnline ((disconnectHandler ((connectRegister
        (connectRegister ⟨[], [], [], []⟩ "u" "s1").1 "u" "s2").1) "u").1).online "u"
      = none :=
  disconnect_stale_takes_user_offline ⟨[], [], [], []⟩ "u" "s1" "s2" (by decide)

/-! ## Room router: the two `join-chat` handlers -/

/-- Variant 1 `join-chat`: `socket.join(chatRoom sessionId)` with **no**
participant check and no error path. -/
def joinChatV1 (st : ServerState) (userId socketId sessionId : String) :
    ServerState × List Out :=
  ({ st with rooms := joinRoom st.rooms socketId (chatRoom sessionId) }, [])

/-- Variant 2 `join-chat`: `findFirst` the session with the caller as a
participant; reject with an `error` event when absent, join otherwise. -/
def joinChatV2 (st : ServerState) (userId socketId sessionId : String) :
    ServerState × List Out :=
  match findSessionForUser st.sessions sessionId userId with
  | none => (st, [Out.errorEvt socketId "Chat session not found"])
  | some _ =>
    ({ st with rooms := joinRoom st.rooms socketId (chatRoom sessionId) }, [])

/-- **C2.** On a store holding one session `c` between `B` and `C`, a
`join-chat` for `c` by the non-participant `A`: the variant-1 handler adds
`A`'s socket to the room and emits no error, while the variant-2 handler
rejects with an error event and leaves the membership table unchanged. -/
theorem joinChat_nonparticipant_eval :
    joinChatV1 ⟨[⟨"c", "B", "C", 0⟩], [], [], []⟩ "A" "sA" "c"
      = (⟨[⟨"c", "B", "C", 0⟩], [], [], [("sA", "chat:c")]⟩, []) ∧
    inRoom (joinChatV1 ⟨[⟨"c", "B", "C", 0⟩], [], [], []⟩ "A" "sA" "c").1.rooms
      "sA" (chatRoom "c") = true ∧
    joinChatV2 ⟨[⟨"c", "B", "C", 0⟩], [], [], []⟩ "A" "sA" "c"
      = (⟨[⟨"c", "B", "C", 0⟩], [], [], []⟩,
         [Out.errorEvt "sA" "Chat session not found"]) := by
  refine ⟨?_, ?_, ?_⟩ <;> decide

/-- The variant-2 `join-chat` authorization contract: a non-participant's join
is rejected with an error event and the state is unchanged; a participant's
join adds the membership and emits nothing. -/
theorem joinChatV2_authorization (st : ServerState)
    (userId socketId sessionId : String) :
    (findSessionForUser st.sessions sessionId userId = none →
      joinChatV2 st userId socketId sessionId
        = (st, [Out.errorEvt socketId "Chat session not found"])) ∧
    (∀ s, findSessionForUser st.sessions sessionId userId = some s →
      joinChatV2 st userId socketId sessionId
        = ({ st with rooms := joinRoom st.rooms socketId (chatRoom sessionId) }, [])) := by
  constructor
  · intro h; simp [joinChatV2, h]
  · intro s h; simp [joinChatV2, h]

/-! ## Connection authenticator: the two admission strategies -/

/-- Outcome of one call to the session verifier (`auth.api.getSession`). -/
inductive VerifierResult where
  /-- A session with a user was returned. -/
  | ok (userId : String)
  /-- `getSession` resolved but returned no session or no user. -/
  | noSession
  /-- `getSession` threw. -/
  | errored
  deriving Repr, DecidableEq

/-- Result of an authentication attempt; `verifierCalled` records whether the
`getSession` collaborator was awaited on this path. -/
structure AuthOutcome where
  verifierCalled : Bool
  admitted : Option String
  outs : List Out
  deriving Repr, DecidableEq

/-- JavaScript truthiness of an optional string (`undefined` and `""` are
falsy). -/
def truthy : Option String → Bool
  | none => false
  | some s => s != ""

/-- Variant 1 `io.use` middleware: it **always** awaits
`auth.api.getSession`, passing `cookies || ''` and a `Bearer` header only when
a token is present; rejection is by `next(new Error(…))`. -/
def authMiddlewareV1 (cookies token : Option String)
    (verifier : VerifierResult) : AuthOutcome :=
  match verifier with
  | .ok uid => { verifierCalled := true, admitted := some uid, outs := [] }
  | .noSession =>
    { verifierCalled := true, admitted := none,
      outs := [Out.nextError "Authentication error"] }
  | .errored =>
    { verifierCalled := true, admitted := none,
      outs := [Out.nextError "Invalid session"] }

/-- Variant 2 post-handshake authentication: when neither cookie nor token is
truthy, emit `auth_error` and disconnect **without** calling the verifier;
otherwise await `getSession` and admit or reject on its result. -/
def authConnectV2 (socketId : String) (cookies token : Option String)
    (verifier : VerifierResult) : AuthOutcome :=
  if !truthy cookies && !truthy token then
    { verifierCalled := false, admitted := none,
      outs := [Out.authError socketId "Authentication required"] }
  else
    match verifier with
    | .ok uid => { verifierCalled := true, admitted := some uid, outs := [] }
    | .noSession =>
      { verifierCalled := true, admitted := none,
        outs := [Out.authError socketId "Invalid session"] }
    | .errored =>
      { verifierCalled := true, admitted := none,
        outs := [Out.authError socketId "Authentication failed"] }

/-- **C7 counterexample.** The variant-1 middleware invokes the verifier even
when the connection presents neither a cookie nor a token, so "rejects
immediately without invoking the credential/session verifier" is false of that
authenticator. -/
theorem authMiddlewareV1_calls_verifier_without_credentials :
    (authMiddlewareV1 none none VerifierResult.noSession).verifierCalled = true ∧
    (authMiddlewareV1 none none (VerifierResult.ok "u")).admitted = some "u" := by
  exact ⟨rfl, rfl⟩

/-- **C7 (amended).** The variant-2 authenticator fails fast: with neither a
truthy cookie nor a truthy token, it rejects with `auth_error` and its outcome
is independent of the verifier — the verifier is not called. -/
theorem authConnectV2_fail_fast (socketId : String) (cookies token : Option String)
    (v v' : VerifierResult) (hc : truthy cookies = false)
    (ht : truthy token = false) :
    authConnectV2 socketId cookies token v
      = { verifierCalled := false, admitted := none,
          outs := [Out.authError socketId "Authentication required"] } ∧
    authConnectV2 socketId cookies token v
      = authConnectV2 socketId cookies token v' := by
  constructor
  · simp [authConnectV2, hc, ht]
  · simp [authConnectV2, hc, ht]

/-- Witness for the amended C7 at a concrete credential-less connection. -/
theorem authConnectV2_fail_fast_witness :
    authConnectV2 "s" none none VerifierResult.errored
      = { verifierCalled := false, admitted := none,
          outs := [Out.authError "s" "Authentication required"] } ∧
    authConnectV2 "s" none none VerifierResult.errored
      = authConnectV2 "s" none none (VerifierResult.ok "u") :=
  authConnectV2_fail_fast "s" none none VerifierResult.errored
    (VerifierResult.ok "u") (by decide) (by decide)

/-! ## Message dispatcher -/

/-- Executable model of JavaScript `String.prototype.trim`: drop leading and
trailing whitespace.  (Lean's own `String.trim` is not kernel-reducible, so
concrete inputs could not be evaluated through it.) -/
def trimChars (cs : List Char) : List Char :=
  (((cs.dropWhile Char.isWhitespace).reverse).dropWhile Char.isWhitespace).reverse

/-- `content.trim()`. -/
def strTrim (s : String) : String := ⟨trimChars s.data⟩

/-- A freshly created `ChatSession` row (`prisma.chatSession.create`):
`createdAt`/`updatedAt` default to the current time. -/
def mkSession (id p1 p2 : String) (t : Nat) : ChatSession := ⟨id, p1, p2, t⟩

/-- A freshly created `Message` row (`prisma.message.create`): `readAt` is
null. -/
def mkMessage (id content senderId receiverId chatSessionId : String) :
    Message :=
  ⟨id, content, senderId, receiverId, chatSessionId, none⟩

/-- The variant-2 `send-message` session lookup:
`findFirst({where: chatSessionId ? {id: chatSessionId} : {OR: [{participant1Id:
userId, participant2Id: receiverId}, {participant1Id: receiverId,
participant2Id: userId}]}})`.  An absent or empty id is falsy in JS, so the
pair query is used in that case. -/
def sendSessionQuery (sessions : List ChatSession) (userId receiverId : String)
    (chatSessionId : Option String) : Option ChatSession :=
  if truthy chatSessionId then
    sessions.find? (fun s => s.id == chatSessionId.getD "")
  else
    sessions.find? (fun s =>
      (s.participant1Id == userId && s.participant2Id == receiverId) ||
      (s.participant1Id == receiverId && s.participant2Id == userId))

/-- The tail of the variant-2 `send-message` handler once `session` is
resolved: persist the message (`createOk = false` models
`prisma.message.create` throwing, caught by the handler's `catch` which emits
`error` to the sender), bump the session's `updatedAt`, broadcast
`new-message` to the room, emit `message-notification` directly to the
receiver's socket only when that socket is **not** in the room, and confirm
`message-sent` to the sender. -/
def sendPersistV2 (st : ServerState) (userId socketId content receiverId : String)
    (session : ChatSession) (freshMid : String) (now : Nat) (createOk : Bool) :
    ServerState × List Out :=
  if createOk then
    let message := mkMessage freshMid (strTrim content) userId receiverId session.id
    let sessions := st.sessions.map (fun s =>
      if s.id == session.id then { s with updatedAt := now } else s)
    let notifyOuts :=
      match lookupOnline st.online receiverId with
      | some receiverSocketId =>
        if inRoom st.rooms receiverSocketId (chatRoom session.id) then []
        else [Out.messageNotification receiverSocketId session.id message]
      | none => []
    ({ st with sessions := sessions, messages := message :: st.messages },
     [Out.newMessageRoom (chatRoom session.id) message] ++ notifyOuts ++
       [Out.messageSent socketId freshMid])
  else
    (st, [Out.errorEvt socketId "Failed to send message"])

/-- The variant-2 `send-message` handler: validate the content, resolve or
create the chat session (creation uses the fresh id `freshSid`), enforce the
participant check only when an existing session was found, then persist and
deliver via `sendPersistV2`. -/
def sendMessageV2 (st : ServerState) (userId socketId content receiverId : String)
    (chatSessionId : Option String) (freshSid freshMid : String) (now : Nat)
    (createOk : Bool) : ServerState × List Out :=
  if strTrim content == "" then
    (st, [Out.errorEvt socketId "Message content is required"])
  else
    match sendSessionQuery st.sessions userId receiverId chatSessionId with
    | none =>
      let session := mkSession freshSid userId receiverId now
      sendPersistV2 { st with sessions := session :: st.sessions }
        userId socketId content receiverId session freshMid now createOk
    | some session =>
      if session.participant1Id != userId && session.participant2Id != userId then
        (st, [Out.errorEvt socketId "You are not part of this chat session"])
      else
        sendPersistV2 st userId socketId content receiverId session freshMid now
          createOk

/-- The variant-1 `send-message` handler: **no** content validation and no
session resolution — the supplied `chatSessionId` is used directly and the
content is stored untrimmed.  `prisma.chatSession.update` throws when no row
matches the id, which the `catch` turns into a `message-error` after the
message row was already inserted.  On success, `new-message` goes to the room
and — always, when the receiver is online — directly to the receiver's
socket. -/
def sendMessageV1 (st : ServerState) (userId socketId content receiverId
    chatSessionId : String) (freshMid : String) (now : Nat) (createOk : Bool) :
    ServerState × List Out :=
  if createOk then
    let message := mkMessage freshMid content userId receiverId chatSessionId
    if (st.sessions.find? (fun s => s.id == chatSessionId)).isNone then
      ({ st with messages := message :: st.messages },
       [Out.messageError socketId "Failed to send message"])
    else
      let sessions := st.sessions.map (fun s =>
        if s.id == chatSessionId then { s with updatedAt := now } else s)
      let directOuts :=
        match lookupOnline st.online receiverId with
        | some receiverSocketId => [Out.newMessageDirect receiverSocketId message]
        | none => []
      ({ st with sessions := sessions, messages := message :: st.messages },
       [Out.newMessageRoom (chatRoom chatSessionId) message] ++ directOuts)
  else
    (st, [Out.messageError socketId "Failed to send message"])

/-- Does an output deliver the message directly to a single receiver socket
(either variant's direct-delivery event)? -/
def isDirectDelivery : Out → Bool
  | Out.newMessageDirect _ _ => true
  | Out.messageNotification _ _ _ => true
  | _ => false

/-! ## Conversation resolution race -/

/-- Two concurrent first-sends between `a` and `b` (no session id supplied),
interleaved at the handlers' `await` boundaries so that **both** `findFirst`
steps complete before either `create` runs: the schedule
`findA; findB; createA; createB`.  Each step is the corresponding persistence
call of the variant-2 `send-message` handler; the result pairs the session id
each caller observes with the final session table. -/
def racedFirstSends (db0 : List ChatSession) (a b idA idB : String)
    (now : Nat) : (String × String) × List ChatSession :=
  let foundA := sendSessionQuery db0 a b none
  let foundB := sendSessionQuery db0 b a none
  let resA_db1 : String × List ChatSession :=
    match foundA with
    | some s => (s.id, db0)
    | none => (idA, mkSession idA a b now :: db0)
  let resB_db2 : String × List ChatSession :=
    match foundB with
    | some s => (s.id, resA_db1.2)
    | none => (idB, mkSession idB b a now :: resA_db1.2)
  ((resA_db1.1, resB_db2.1), resB_db2.2)

/-- How many stored conversations hold the unordered pair `{a, b}`. -/
def pairSessionCount (db : List ChatSession) (a b : String) : Nat :=
  (db.filter (fun s =>
    (s.participant1Id == a && s.participant2Id == b) ||
    (s.participant1Id == b && s.participant2Id == a))).length

/-! ## Claim theorems about the dispatcher and the resolution race -/

/-- **C1.** From an empty store, two concurrent first-sends between `A` and
`B` under the schedule `findA; findB; createA; createB` create **two**
conversations for the unordered pair and the callers observe **different**
session ids — the get-or-create in `send-message` is not serialized. -/
theorem raced_first_sends_duplicate :
    racedFirstSends [] "A" "B" "c1" "c2" 0
      = (("c1", "c2"), [mkSession "c2" "B" "A" 0, mkSession "c1" "A" "B" 0]) ∧
    pairSessionCount (racedFirstSends [] "A" "B" "c1" "c2" 0).2 "A" "B" = 2 ∧
    ("c1" : String) ≠ "c2" := by
  refine ⟨?_, ?_, ?_⟩ <;> decide

/-- **C3 counterexample.** The variant-1 `send-message` handler persists and
broadcasts a whitespace-only message instead of rejecting it: on a store with
session `c` and receiver `B` online, sending `"   "` inserts a Message row and
emits `new-message` both to the room and to `B`. -/
theorem sendMessageV1_blank_persisted :
    strTrim "   " = "" ∧
    (sendMessageV1 ⟨[⟨"c", "A", "B", 0⟩], [], [("B", "sB")], []⟩
        "A" "sA" "   " "B" "c" "m1" 7 true).1.messages
      = [mkMessage "m1" "   " "A" "B" "c"] ∧
    (sendMessageV1 ⟨[⟨"c", "A", "B", 0⟩], [], [("B", "sB")], []⟩
        "A" "sA" "   " "B" "c" "m1" 7 true).2
      = [Out.newMessageRoom (chatRoom "c") (mkMessage "m1" "   " "A" "B" "c"),
         Out.newMessageDirect "sB" (mkMessage "m1" "   " "A" "B" "c")] := by
  refine ⟨?_, ?_, ?_⟩ <;> decide

/-- **C3 (amended).** The variant-2 dispatcher rejects content that is empty
after trimming with a validation error event: no row is persisted, nothing is
broadcast, the state is unchanged. -/
theorem sendMessageV2_rejects_blank (st : ServerState)
    (userId socketId content receiverId : String) (chatSessionId : Option String)
    (freshSid freshMid : String) (now : Nat) (createOk : Bool)
    (h : strTrim content = "") :
    sendMessageV2 st userId socketId content receiverId chatSessionId freshSid
        freshMid now createOk
      = (st, [Out.errorEvt socketId "Message content is required"]) := by
  simp [sendMessageV2, h]

/-- Witness for the amended C3 at a concrete whitespace-only send. -/
theorem sendMessageV2_rejects_blank_witness :
    sendMessageV2 ⟨[], [], [], []⟩ "A" "sA" "  " "B" none "c1" "m1" 0 true
      = (⟨[], [], [], []⟩, [Out.errorEvt "sA" "Message content is required"]) :=
  sendMessageV2_rejects_blank ⟨[], [], [], []⟩ "A" "sA" "  " "B" none "c1" "m1"
    0 true (by decide)

/-- **C10.** A variant-2 send supplying a session id that matches no stored
session is not rejected: a brand-new session (with the persistence-assigned
fresh id, not the supplied one) is created between sender and receiver, the
message is persisted into it, and no error event is emitted. -/
theorem sendMessageV2_unknown_id_creates (st : ServerState)
    (userId socketId content receiverId cid freshSid freshMid : String)
    (now : Nat) (hcid : cid ≠ "")
    (hfind : st.sessions.find? (fun s => s.id == cid) = none)
    (hcontent : strTrim content ≠ "") :
    (sendMessageV2 st userId socketId content receiverId (some cid) freshSid
        freshMid now true).1.sessions.head?
      = some (mkSession freshSid userId receiverId now) ∧
    (sendMessageV2 st userId socketId content receiverId (some cid) freshSid
        freshMid now true).1.messages
      = mkMessage freshMid (strTrim content) userId receiverId freshSid
          :: st.messages ∧
    ∀ emsg, Out.errorEvt socketId emsg
      ∉ (sendMessageV2 st userId socketId content receiverId (some cid) freshSid
          freshMid now true).2 := by
  have hguard : ¬ ((strTrim content == "") = true) := by simp [hcontent]
  have hquery : sendSessionQuery st.sessions userId receiverId (some cid) = none := by
    simpa [sendSessionQuery, truthy, bne_iff_ne, hcid] using hfind
  refine ⟨?_, ?_, ?_⟩
  · simp [sendMessageV2, if_neg hguard, hcontent, hquery, sendPersistV2, mkSession, mkMessage]
  · simp [sendMessageV2, if_neg hguard, hcontent, hquery, sendPersistV2, mkSession, mkMessage]
  · intro emsg
    simp only [sendMessageV2, hquery]
    cases hon : lookupOnline st.online receiverId with
    | none => simp [sendPersistV2, hcontent, hon, mkSession]
    | some rsid =>
      by_cases hroom : inRoom st.rooms rsid (chatRoom freshSid) = true
      · simp [sendPersistV2, hcontent, hon, mkSession, hroom]
      · simp [sendPersistV2, hcontent, hon, mkSession, hroom]

/-- Witness for C10: a send naming the unknown session id `zzz` creates
session `f` between `A` and `B`, stores the message there, and emits no
error. -/
theorem sendMessageV2_unknown_id_creates_witness :
    (sendMessageV2 ⟨[⟨"c", "A", "B", 0⟩], [], [], []⟩ "A" "sA" "hi" "B"
        (some "zzz") "f" "m1" 7 true).1.sessions.head?
      = some (mkSession "f" "A" "B" 7) ∧
    (sendMessageV2 ⟨[⟨"c", "A", "B", 0⟩], [], [], []⟩ "A" "sA" "hi" "B"
        (some "zzz") "f" "m1" 7 true).1.messages
      = [mkMessage "m1" "hi" "A" "B" "f"] ∧
    ∀ emsg, Out.errorEvt "sA" emsg
      ∉ (sendMessageV2 ⟨[⟨"c", "A", "B", 0⟩], [], [], []⟩ "A" "sA" "hi" "B"
          (some "zzz") "f" "m1" 7 true).2 :=
  sendMessageV2_unknown_id_creates ⟨[⟨"c", "A", "B", 0⟩], [], [], []⟩
    "A" "sA" "hi" "B" "zzz" "f" "m1" 7 (by decide) (by decide) (by decide)

/-- **C8.** When message persistence fails (`prisma.message.create` throws),
both variants emit exactly one error event — to the sending socket only — and
deliver no `new-message` broadcast and no direct notification; the message
table is unchanged. -/
theorem sendMessage_persist_failure (st : ServerState)
    (userId socketId content receiverId : String) (chatSessionId : Option String)
    (freshSid freshMid : String) (now : Nat)
    (hc : strTrim content ≠ "")
    (hp : ∀ s, sendSessionQuery st.sessions userId receiverId chatSessionId = some s →
      s.participant1Id = userId ∨ s.participant2Id = userId) :
    ((sendMessageV2 st userId socketId content receiverId chatSessionId freshSid
        freshMid now false).1.messages = st.messages ∧
     (sendMessageV2 st userId socketId content receiverId chatSessionId freshSid
        freshMid now false).2
       = [Out.errorEvt socketId "Failed to send message"]) ∧
    ∀ sessionId,
      (sendMessageV1 st userId socketId content receiverId sessionId freshMid
        now false).1.messages = st.messages ∧
      (sendMessageV1 st userId socketId content receiverId sessionId freshMid
        now false).2 = [Out.messageError socketId "Failed to send message"] := by
  have hguard : ¬ ((strTrim content == "") = true) := by simp [hc]
  constructor
  · cases hq : sendSessionQuery st.sessions userId receiverId chatSessionId with
    | none =>
      constructor <;> simp [sendMessageV2, hc, hq, sendPersistV2]
    | some s =>
      have hpart : ¬ ((s.participant1Id != userId && s.participant2Id != userId) = true) := by
        rcases hp s hq with h1 | h2
        · simp [h1]
        · simp [h2]
      constructor <;>
        simp [sendMessageV2, hc, hq, hpart, sendPersistV2]
  · intro sessionId
    constructor <;> simp [sendMessageV1]

/-- Witness for C8: a failing persistence of `A`'s message to `B` in session
`c` leaves the message table empty and emits only the error event, in both
variants. -/
theorem sendMessage_persist_failure_witness :
    ((sendMessageV2 ⟨[⟨"c", "A", "B", 0⟩], [], [], []⟩ "A" "sA" "hi" "B"
        (some "c") "f" "m1" 7 false).1.messages = [] ∧
     (sendMessageV2 ⟨[⟨"c", "A", "B", 0⟩], [], [], []⟩ "A" "sA" "hi" "B"
        (some "c") "f" "m1" 7 false).2
       = [Out.errorEvt "sA" "Failed to send message"]) ∧
    ∀ sessionId,
      (sendMessageV1 ⟨[⟨"c", "A", "B", 0⟩], [], [], []⟩ "A" "sA" "hi" "B"
        sessionId "m1" 7 false).1.messages = [] ∧
      (sendMessageV1 ⟨[⟨"c", "A", "B", 0⟩], [], [], []⟩ "A" "sA" "hi" "B"
        sessionId "m1" 7 false).2
        = [Out.messageError "sA" "Failed to send message"] :=
  sendMessage_persist_failure ⟨[⟨"c", "A", "B", 0⟩], [], [], []⟩ "A" "sA" "hi"
    "B" (some "c") "f" "m1" 7 (by decide)
    (by
      intro s hs
      have h0 : sendSessionQuery [⟨"c", "A", "B", 0⟩] "A" "B" (some "c")
          = some ⟨"c", "A", "B", 0⟩ := by decide
      rw [h0] at hs
      injection hs with h
      rw [← h]
      exact Or.inl rfl)

/-- **C4 counterexample.** In variant 2, when the receiver is online **and**
already joined to the conversation room, no direct notification is delivered —
only the room broadcast and the sender confirmation — contradicting "a direct
notification is delivered regardless of whether that connection is joined". -/
theorem sendMessageV2_inroom_no_direct :
    lookupOnline [("B", "sB")] "B" = some "sB" ∧
    (sendMessageV2 ⟨[⟨"c", "A", "B", 0⟩], [], [("B", "sB")],
        [("sB", chatRoom "c")]⟩ "A" "sA" "hi" "B" (some "c") "f" "m1" 7 true).2
      = [Out.newMessageRoom (chatRoom "c") (mkMessage "m1" "hi" "A" "B" "c"),
         Out.messageSent "sA" "m1"] ∧
    ((sendMessageV2 ⟨[⟨"c", "A", "B", 0⟩], [], [("B", "sB")],
        [("sB", chatRoom "c")]⟩ "A" "sA" "hi" "B" (some "c") "f" "m1" 7
        true).2.filter isDirectDelivery) = [] := by
  refine ⟨?_, ?_, ?_⟩ <;> decide

/-- **C4 (amended).** On a successful send: the room broadcast always goes
out; variant 2 delivers the direct `message-notification` to an online
receiver **only when** their socket is not joined to the conversation room,
and suppresses it when it is; variant 1 always delivers a direct
`new-message` to an online receiver. -/
theorem sendMessage_delivery (st : ServerState)
    (userId socketId content receiverId : String) (chatSessionId : Option String)
    (freshSid freshMid : String) (now : Nat) (session : ChatSession)
    (rsid : String)
    (hq : sendSessionQuery st.sessions userId receiverId chatSessionId = some session)
    (hpart : session.participant1Id = userId ∨ session.participant2Id = userId)
    (hc : strTrim content ≠ "")
    (honline : lookupOnline st.online receiverId = some rsid) :
    (inRoom st.rooms rsid (chatRoom session.id) = true →
      (sendMessageV2 st userId socketId content receiverId chatSessionId
          freshSid freshMid now true).2
        = [Out.newMessageRoom (chatRoom session.id)
             (mkMessage freshMid (strTrim content) userId receiverId session.id),
           Out.messageSent socketId freshMid]) ∧
    (inRoom st.rooms rsid (chatRoom session.id) = false →
      (sendMessageV2 st userId socketId content receiverId chatSessionId
          freshSid freshMid now true).2
        = [Out.newMessageRoom (chatRoom session.id)
             (mkMessage freshMid (strTrim content) userId receiverId session.id),
           Out.messageNotification rsid session.id
             (mkMessage freshMid (strTrim content) userId receiverId session.id),
           Out.messageSent socketId freshMid]) ∧
    ∀ sid, (st.sessions.find? (fun s => s.id == sid)).isSome = true →
      Out.newMessageDirect rsid (mkMessage freshMid content userId receiverId sid)
        ∈ (sendMessageV1 st userId socketId content receiverId sid freshMid
            now true).2 := by
  have hguard : ¬ ((strTrim content == "") = true) := by simp [hc]
  have hpartb : ¬ ((session.participant1Id != userId &&
      session.participant2Id != userId) = true) := by
    rcases hpart with h1 | h2
    · simp [h1]
    · simp [h2]
  refine ⟨?_, ?_, ?_⟩
  · intro hroom
    simp [sendMessageV2, hc, hq, hpartb, sendPersistV2, honline, hroom]
  · intro hroom
    simp [sendMessageV2, hc, hq, hpartb, sendPersistV2, honline, hroom]
  · intro sid hsid
    have hnn : ((st.sessions.find? (fun s => s.id == sid)).isNone) = false := by
      rcases Option.isSome_iff_exists.mp hsid with ⟨v, hv⟩
      simp [hv]
    simp [sendMessageV1, hnn, honline]

/-- Witness for the amended C4: with `B` online and not joined to the room,
variant 2 emits the direct `message-notification`. -/
theorem sendMessage_delivery_witness :
    (sendMessageV2 ⟨[⟨"c", "A", "B", 0⟩], [], [("B", "sB")], []⟩ "A" "sA" "hi"
        "B" (some "c") "f" "m1" 7 true).2
      = [Out.newMessageRoom (chatRoom "c") (mkMessage "m1" "hi" "A" "B" "c"),
         Out.messageNotification "sB" "c" (mkMessage "m1" "hi" "A" "B" "c"),
         Out.messageSent "sA" "m1"] :=
  (sendMessage_delivery ⟨[⟨"c", "A", "B", 0⟩], [], [("B", "sB")], []⟩ "A" "sA"
      "hi" "B" (some "c") "f" "m1" 7 ⟨"c", "A", "B", 0⟩ "sB" (by decide)
      (Or.inl rfl) (by decide) (by decide)).2.1 (by decide)

/-! ## Read receipts: the notice payload -/

/-- **C5 counterexample.** `B` marks the already-read message `m1` in session
`c`: zero rows are updated (the table is unchanged), yet the online sender `A`
receives a `messages-read` notice listing `m1` — the notice carries the
caller-supplied ids, not the ids actually updated (here: none). -/
theorem markRead_notice_carries_supplied_ids :
    unreadMatchCount [⟨"m1", "hi", "A", "B", "c", some 3⟩] ["m1"] "B" = 0 ∧
    (markRead ⟨[⟨"c", "A", "B", 0⟩], [⟨"m1", "hi", "A", "B", "c", some 3⟩],
        [("A", "sA")], []⟩ "B" "c" ["m1"] 9).1.messages
      = [⟨"m1", "hi", "A", "B", "c", some 3⟩] ∧
    (markRead ⟨[⟨"c", "A", "B", 0⟩], [⟨"m1", "hi", "A", "B", "c", some 3⟩],
        [("A", "sA")], []⟩ "B" "c" ["m1"] 9).2
      = [Out.messagesRead "sA" "c" ["m1"]] := by
  refine ⟨?_, ?_, ?_⟩ <;> decide

/-- **C5 (amended).** When the caller is a participant, `mark-read` applies
the guarded update and then: if the other participant is online, emits exactly
one `messages-read` notice carrying the session id and the **caller-supplied**
message id list; if they are offline, emits nothing. -/
theorem markRead_notice_semantics (st : ServerState) (userId sessionId : String)
    (messageIds : List String) (now : Nat) (session : ChatSession)
    (hfind : findSessionForUser st.sessions sessionId userId = some session) :
    (∀ rsid, lookupOnline st.online (if session.participant1Id == userId
        then session.participant2Id else session.participant1Id) = some rsid →
      (markRead st userId sessionId messageIds now).2
        = [Out.messagesRead rsid sessionId messageIds]) ∧
    (lookupOnline st.online (if session.participant1Id == userId
        then session.participant2Id else session.participant1Id) = none →
      (markRead st userId sessionId messageIds now).2 = []) ∧
    (markRead st userId sessionId messageIds now).1.messages
      = markReadUpdate st.messages messageIds userId now := by
  refine ⟨?_, ?_, ?_⟩
  · intro rsid h
    simp only [beq_iff_eq] at h
    simp [markRead, hfind, h]
  · intro h
    simp only [beq_iff_eq] at h
    simp [markRead, hfind, h]
  · cases h : lookupOnline st.online (if session.participant1Id == userId
        then session.participant2Id else session.participant1Id) with
    | none => simp [markRead, hfind, h]
    | some rsid => simp [markRead, hfind, h]

/-- Witness for the amended C5: `B` marks the unread `m1` read; the online
sender `A` receives one notice listing `m1`. -/
theorem markRead_notice_semantics_witness :
    (markRead ⟨[⟨"c", "A", "B", 0⟩], [⟨"m1", "hi", "A", "B", "c", none⟩],
        [("A", "sA")], []⟩ "B" "c" ["m1"] 9).2
      = [Out.messagesRead "sA" "c" ["m1"]] :=
  (markRead_notice_semantics ⟨[⟨"c", "A", "B", 0⟩],
      [⟨"m1", "hi", "A", "B", "c", none⟩], [("A", "sA")], []⟩ "B" "c" ["m1"] 9
      ⟨"c", "A", "B", 0⟩ (by decide)).1 "sA" (by decide)

end NexusChat
